import Mathlib

/-!
Verification of the conag-forecaster-backend relay service (`server.js`).

The server is an Express application with three POST endpoints
(`/api/log-forecast-usage`, `/api/send-forecast-report`, `/api/gemini-proxy`),
a CORS origin allow-list, and a helper that configures the Brevo SDK's shared
default client.  Each handler is embedded below as a pure Lean function:

* JSON values are a `Json` inductive; JavaScript truthiness is `Json.isTruthy`.
* Request bodies are structures whose fields carry the `Json` (or, where the
  handler only ever treats a field numerically, `Option Rat`) values the
  handler reads.
* Each outbound network interaction is a `CallOutcome` parameter (success or
  failure of the awaited SDK/HTTP call), and the handler result records the
  outbound calls attempted, the console output produced, and the HTTP
  response sent.
* Numbers are rationals: `Math.round` is `jsRound` (floor of `x + 1/2`, which
  is JavaScript's round-half-up), and `Number.prototype.toLocaleString` on a
  whole number is `jsLocaleString` (decimal digits in groups of three
  separated by commas).  JavaScript's shortest-round-trip printing of
  non-integral doubles is not modelled; the handlers only ever format the
  result of `Math.round`, which is integral.
-/

/-- A JSON value, as parsed by `express.json()` and produced by `res.json`. -/
inductive Json where
  | null : Json
  | bool (b : Bool) : Json
  | num (q : Rat) : Json
  | str (s : String) : Json
  | arr (elems : List Json) : Json
  | obj (fields : List (String × Json)) : Json

/-- JavaScript truthiness of a JSON value (`null`, `false`, `0` and `""` are
falsy; arrays and objects are always truthy). -/
def Json.isTruthy : Json → Bool
  | .null => false
  | .bool b => b
  | .num q => if q = 0 then false else true
  | .str s => if s = "" then false else true
  | .arr _ => true
  | .obj _ => true

/-- Truthiness of a possibly-absent object field (`undefined` is falsy). -/
def jsTruthyOpt : Option Json → Bool
  | none => false
  | some j => j.isTruthy

/-- First-match lookup of a key in a JSON object's field list. -/
def jsonLookup : List (String × Json) → String → Option Json
  | [], _ => none
  | (k, v) :: rest, key => if k = key then some v else jsonLookup rest key

/-- `Json.getField j k` is `j[k]` when `j` is an object holding key `k`. -/
def Json.getField : Json → String → Option Json
  | .obj fields, key => jsonLookup fields key
  | _, _ => none

/-- Environment configuration (`process.env.*`), read at process start:
`BREVO_API_KEY`, `BREVO_LEAD_LIST_ID` (after `parseInt`), `GOOGLE_SHEET_ID`,
`MARKETING_TEAM_EMAIL`, `BREVO_SENDER_EMAIL`, `GEMINI_API_KEY`. -/
structure Config where
  brevoApiKey : String
  brevoLeadListId : Int
  googleSheetId : String
  marketingTeamEmail : String
  brevoSenderEmail : String
  geminiApiKey : String
deriving DecidableEq

/-- Outcome of one awaited outbound SDK/HTTP call: it either resolves or
rejects (throws into the enclosing `try`). -/
inductive CallOutcome where
  | success
  | failure
deriving DecidableEq

/-- An HTTP response sent with `res.status(s).json(body)`. -/
structure HttpResponse where
  status : Nat
  body : Json

/-- `Math.round`: round half toward positive infinity, i.e.
`⌊q + 1/2⌋`.  For `q = num/den` with `den > 0` this is the floor division
`(2*num + den) / (2*den)`, written with integer arithmetic so that it
evaluates definitionally. -/
def jsRound (q : Rat) : Int := Int.fdiv (2 * q.num + (q.den : Int)) (2 * (q.den : Int))

example : jsRound (Rat.divInt 6173 5) = 1235 := by decide
example : jsRound 0 = 0 := by decide
example : jsRound (Rat.divInt (-5) 2) = -2 := by decide
example : jsRound (Rat.divInt (-7) 2) = -3 := by decide

/-- Digit grouping: walking the digit list least-significant first, insert a
comma after every third digit. -/
def group3rev : List Char → List Char
  | a :: b :: c :: d :: rest => a :: b :: c :: ',' :: group3rev (d :: rest)
  | l => l

/-- Decimal digits of `n`, grouped in threes by commas (`toLocaleString` of a
whole number under the default en-US locale). -/
def groupThousands (n : Nat) : String :=
  String.mk (group3rev (Nat.toDigits 10 n).reverse).reverse

/-- `Number.prototype.toLocaleString` on an integer. -/
def jsLocaleString (n : Int) : String :=
  if n < 0 then "-" ++ groupThousands n.natAbs else groupThousands n.natAbs

example : jsLocaleString 1235 = "1,235" := by decide
example : jsLocaleString 0 = "0" := by decide
example : jsLocaleString 1234567 = "1,234,567" := by decide

/-!
## Gemini proxy endpoint (`app.post('/api/gemini-proxy')`, server.js 162-197)

The handler destructures `prompt`, `isJsonOutput` and `schema` from the JSON
request body (an absent field is JavaScript `undefined`, modelled `none`),
rejects a falsy prompt with 400, builds the upstream payload, performs one
`fetch` against the Gemini `generateContent` URL, and relays the outcome.
-/

/-- Outcome of the `fetch` to the upstream model API, as the handler can
observe it: a response whose body parsed as JSON (any status), a response
whose body failed `geminiResponse.json()` (the parse rejects into the
`catch`), or a transport-level failure (the `fetch` itself rejects). -/
inductive UpstreamOutcome where
  | response (status : Nat) (body : Json)
  | nonJsonBody (status : Nat)
  | transportFailure

/-- `geminiResponse.ok`: status in the inclusive range 200-299. -/
def fetchOk (status : Nat) : Bool := 200 ≤ status && status < 300

/-- The contact-creation request submitted to the Brevo contacts API
(`new Brevo.CreateContact()` as populated by the logging handler). -/
structure CreateContact where
  email : Json
  listIds : List Int
  attributes : List (String × Json)
  updateEnabled : Bool

/-- An email participant (`{ email, name }`). -/
structure EmailPerson where
  email : Json
  name : Json

/-- The transactional email submitted to Brevo
(`new Brevo.SendSmtpEmail()` as populated by the report handler).
`sendTo` embeds the SDK field named `to` (`to` is not a usable Lean name). -/
structure EmailMessage where
  sendTo : List EmailPerson
  bcc : List EmailPerson
  sender : EmailPerson
  subject : String
  htmlContent : String

/-- Every outbound call a handler can attempt. -/
inductive OutboundCall where
  | brevoCreateContact (c : CreateContact)
  | sheetAppend (row : List (String × Json))
  | sendEmail (m : EmailMessage)
  | geminiGenerate (payload : Json)

/-- What one request does, as observable from outside the process: the
outbound calls attempted (in order), the console lines written, and the HTTP
response sent. -/
structure HandlerResult where
  calls : List OutboundCall
  logs : List String
  response : HttpResponse

/-- The payload built by the proxy handler (server.js 171-178): the prompt as
the text of a single user-role turn, plus a `generationConfig` exactly when
`isJsonOutput && schema` is truthy.  `Json.null` below stands for a value
that the truthiness test guarantees is never used. -/
def geminiPayload (prompt : Json) (isJsonOutput schema : Option Json) : Json :=
  let contents : List (String × Json) :=
    [("contents", Json.arr [Json.obj
      [("role", Json.str "user"),
       ("parts", Json.arr [Json.obj [("text", prompt)]])]])]
  if jsTruthyOpt isJsonOutput && jsTruthyOpt schema then
    Json.obj (contents ++
      [("generationConfig", Json.obj
        [("responseMimeType", Json.str "application/json"),
         ("responseSchema", (schema.getD Json.null))])])
  else
    Json.obj contents

/-- The proxy handler (server.js 162-197).  `upstream` is the behavior of the
single `fetch` against the Gemini API, as a function of the payload sent. -/
def geminiProxy (prompt isJsonOutput schema : Option Json)
    (upstream : Json → UpstreamOutcome) : HandlerResult :=
  if !(jsTruthyOpt prompt) then
    { calls := [], logs := ["--- AI proxy endpoint called. ---"],
      response := ⟨400,
        Json.obj [("error", Json.obj [("message", Json.str "Prompt is required.")])]⟩ }
  else
    let payload := geminiPayload (prompt.getD Json.null) isJsonOutput schema
    match upstream payload with
    | .response status body =>
      if !(fetchOk status) then
        { calls := [.geminiGenerate payload],
          logs := ["--- AI proxy endpoint called. ---", "Error from Gemini API:"],
          response := ⟨status, body⟩ }
      else
        { calls := [.geminiGenerate payload],
          logs := ["--- AI proxy endpoint called. ---", "Successfully received AI response."],
          response := ⟨200, body⟩ }
    | .nonJsonBody _ =>
      { calls := [.geminiGenerate payload],
        logs := ["--- AI proxy endpoint called. ---", "Fatal error in Gemini Proxy:"],
        response := ⟨500,
          Json.obj [("error", Json.obj [("message",
            Json.str "A critical error occurred on the backend while contacting the AI service.")])]⟩ }
    | .transportFailure =>
      { calls := [.geminiGenerate payload],
        logs := ["--- AI proxy endpoint called. ---", "Fatal error in Gemini Proxy:"],
        response := ⟨500,
          Json.obj [("error", Json.obj [("message",
            Json.str "A critical error occurred on the backend while contacting the AI service.")])]⟩ }

/-!
## Usage-logging endpoint (`app.post('/api/log-forecast-usage')`, server.js 46-101)

The handler reads a `UsageEvent` body, attempts a Brevo create-or-update
contact call inside one `try`/`catch` and a Google-Sheets row append inside a
second independent `try`/`catch` (each `catch` only writes a console error),
and unconditionally responds `200 {message: 'Data logged successfully'}`.
-/

/-- The nested `serviceInputs` object of a usage event, with the fields the
handlers read.  Values are forwarded as-is, so they stay raw `Json`. -/
structure UsageServiceInputs where
  emailSends : Json
  selectedSocialChannelsText : Json
  websiteMaintenanceSelected : Json
  seoEnhancementsSelected : Json
  googleAdsDailySpend : Json

/-- A usage-event request body (the fields `scenarioData.*` that the logging
handler reads). -/
structure UsageEvent where
  userName : Json
  userEmail : Json
  userCompany : Json
  equipmentTypes : Json
  avgSaleValue : Json
  avgProfitMargin : Json
  totalMonthlyMarketingSpend : Json
  netGainFromOneSale : Json
  serviceInputs : UsageServiceInputs

/-- The `Brevo.CreateContact` request built on server.js 53-61. -/
def buildCreateContact (cfg : Config) (d : UsageEvent) : CreateContact :=
  { email := d.userEmail,
    listIds := [cfg.brevoLeadListId],
    attributes :=
      [("FIRSTNAME", d.userName),
       ("COMPANY", d.userCompany),
       ("DEALER_TYPE", d.equipmentTypes)],
    updateEnabled := true }

/-- The sheet row built on server.js 75-90; `now` is the server-generated
`new Date().toISOString()` timestamp. -/
def buildSheetRow (now : String) (d : UsageEvent) : List (String × Json) :=
  [("Timestamp", Json.str now),
   ("Name", d.userName),
   ("Email", d.userEmail),
   ("Company", d.userCompany),
   ("Equipment Types", d.equipmentTypes),
   ("Avg Sale Value", d.avgSaleValue),
   ("Avg Profit Margin", d.avgProfitMargin),
   ("Total Spend", d.totalMonthlyMarketingSpend),
   ("Net Gain", d.netGainFromOneSale),
   ("Email Sends", d.serviceInputs.emailSends),
   ("Social Channels", d.serviceInputs.selectedSocialChannelsText),
   ("Website Maintenance",
     Json.str (if d.serviceInputs.websiteMaintenanceSelected.isTruthy then "Yes" else "No")),
   ("SEO & AI",
     Json.str (if d.serviceInputs.seoEnhancementsSelected.isTruthy then "Yes" else "No")),
   ("Google Ads Daily Spend", d.serviceInputs.googleAdsDailySpend)]

/-- The logging handler (server.js 46-101).  `brevoOutcome` is the outcome of
the awaited `createContact` call, `sheetOutcome` that of the sheet
interaction (`loadInfo` followed by `addRow`; a failure of either rejects
into the same `catch`).  Each `catch` logs and falls through, so the sheet
block runs whatever the Brevo block did, and the response is always the
fixed 200 success message. -/
def logForecastUsage (cfg : Config) (now : String) (d : UsageEvent)
    (brevoOutcome sheetOutcome : CallOutcome) : HandlerResult :=
  let contact := buildCreateContact cfg d
  let brevoLogs : List String :=
    match brevoOutcome with
    | .success => ["Brevo contact created/updated."]
    | .failure => ["Brevo API Error:"]
  let row := buildSheetRow now d
  let sheetLogs : List String :=
    match sheetOutcome with
    | .success => ["Google Sheet updated successfully with detailed data."]
    | .failure => ["Google Sheets Error:"]
  { calls := [.brevoCreateContact contact, .sheetAppend row],
    logs := "--- Logging endpoint called for: ---" :: (brevoLogs ++ sheetLogs),
    response := ⟨200, Json.obj [("message", Json.str "Data logged successfully")]⟩ }

/-!
## Report-email endpoint (`app.post('/api/send-forecast-report')`, server.js 104-159)

The handler logs an entry line that dereferences `reportData.userEmail`,
guards on `!reportData || !reportData.userEmail`, renders an HTML body with
`formatCurrency` and template interpolation, and submits one transactional
email; a provider failure is caught and reported as a 500.
-/

mutual

/-- JavaScript template-literal conversion (`String(x)`) of an interpolated
JSON value.  Integral numbers print as decimal digits, matching JavaScript
exactly; for non-integral numbers, `Rat`'s printing stands in for
JavaScript's shortest-round-trip double printing (the handler only ever
interpolates strings and whole numbers in addition to `formatCurrency`
results, which are already strings). -/
def Json.interp : Json → String
  | .null => "null"
  | .bool b => if b then "true" else "false"
  | .num q => if q.den = 1 then toString q.num else toString q
  | .str s => s
  | .arr xs => Json.interpElems xs
  | .obj _ => "[object Object]"

/-- `Array.prototype.toString`: elements joined by commas. -/
def Json.interpElems : List Json → String
  | [] => ""
  | [x] => Json.interpElem x
  | x :: rest => Json.interpElem x ++ "," ++ Json.interpElems rest

/-- One array element under `join`: `null` (and `undefined`) become the
empty string rather than `"null"`. -/
def Json.interpElem : Json → String
  | .null => ""
  | j => Json.interp j

end

/-- `formatCurrency` (server.js 111):
`(num) => "$" + Math.round(num || 0).toLocaleString()` (template literal in
the source).  The numeric report fields are numbers when present (`some q`)
and `undefined`/`null` when absent (`none`); `num || 0` replaces a falsy
operand by `0`, and the only falsy number is `0` itself, so on this domain
it is `num.getD 0`. -/
def formatCurrency (num : Option Rat) : String :=
  "$" ++ jsLocaleString (jsRound (num.getD 0))

example : formatCurrency (some (1234.6 : Rat)) = "$1,235" := by
  have h : (1234.6 : Rat) = Rat.divInt 6173 5 := by rw [Rat.divInt_eq_div]; norm_num
  rw [h]; decide

example : formatCurrency none = "$0" := by decide
example : formatCurrency (some 0) = "$0" := by decide

/-- The inline color chosen on server.js 136 by
`reportData.netGainFromOneSale >= 0` (a comparison against `undefined` is
false, so an absent value yields the negative color). -/
def gainColor (netGain : Option Rat) : String :=
  match netGain with
  | some q => if 0 ≤ q then "#107C10" else "#D83B01"
  | none => "#D83B01"

/-- The nested `serviceInputs` object of a report request.  The two selection
flags are read only through truthiness tests and stay raw `Json`; the daily
spend is read only through `formatCurrency` and is a number when present. -/
structure ReportServiceInputs where
  emailSends : Json
  selectedSocialChannelsText : Json
  websiteMaintenanceSelected : Json
  seoEnhancementsSelected : Json
  googleAdsDailySpend : Option Rat

/-- A report request body (the fields `reportData.*` the email handler
reads).  The four top-level money fields are read only through
`formatCurrency` (and `netGainFromOneSale` additionally through `>= 0`), so
they are modelled as numbers when present and `none` when absent or null. -/
structure ReportData where
  userEmail : Json
  userName : Json
  equipmentTypes : Json
  avgSaleValue : Option Rat
  avgProfitMargin : Json
  totalMonthlyMarketingSpend : Option Rat
  profitFromOneSale : Option Rat
  netGainFromOneSale : Option Rat
  serviceInputs : ReportServiceInputs
/-- The HTML email body built on server.js 114-143, reproduced byte for byte
with each interpolation replaced by the embedded value (literal runs are
split at label boundaries; catenation of the pieces equals the template). -/
def reportHtml (d : ReportData) : String :=
  "\n            <div style=\"font-family: Arial, sans-serif; color: #333;\">\n                <h1>Your Marketing Investment Forecast</h1>\n                <p>Hi " ++
  d.userName.interp ++
  ",</p>\n                <p>Thank you for using the ConAg Marketing Forecaster. Here is a summary of the plan you generated.</p>\n                \n                <h3 style=\"color: #002D62;\">📝 Your Selections</h3>\n                <ul>\n                    " ++
  "<li><strong>What Equipment You Sell:</strong> " ++
  d.equipmentTypes.interp ++
  "</li>\n                    " ++
  "<li><strong>Average Sale Value:</strong> " ++
  formatCurrency d.avgSaleValue ++
  "</li>\n                    " ++
  "<li><strong>Average Profit Margin:</strong> " ++
  d.avgProfitMargin.interp ++
  "%" ++
  "</li>\n                    " ++
  "<li><strong>Email Blasts:</strong> " ++
  d.serviceInputs.emailSends.interp ++
  " send(s)/month" ++
  "</li>\n                    " ++
  "<li><strong>Social Media Channels:</strong> " ++
  d.serviceInputs.selectedSocialChannelsText.interp ++
  "</li>\n                    " ++
  "<li><strong>Website Maintenance:</strong> " ++
  (if d.serviceInputs.websiteMaintenanceSelected.isTruthy then "Yes" else "No") ++
  "</li>\n                    " ++
  "<li><strong>Website SEO & AI Enhancements:</strong> " ++
  (if d.serviceInputs.seoEnhancementsSelected.isTruthy then "Yes" else "No") ++
  "</li>\n                    " ++
  "<li><strong>Google Ads Daily Spend:</strong> " ++
  formatCurrency d.serviceInputs.googleAdsDailySpend ++
  "</li>\n                </ul>\n\n                <h3 style=\"color: #002D62;\">🎯 Your Potential with One Additional Sale</h3>\n                <ul>\n                    <li>" ++
  "Total Selected Monthly Marketing Spend: <strong>" ++
  formatCurrency d.totalMonthlyMarketingSpend ++
  "</strong></li>\n                    <li>" ++
  "Estimated Profit from ONE Sale: <strong>" ++
  formatCurrency d.profitFromOneSale ++
  "</strong></li>\n                    <li style=\"font-size: 1.2em;\">" ++
  "Estimated Net Gain: <strong style=\"color: " ++
  gainColor d.netGainFromOneSale ++
  ";\">" ++
  formatCurrency d.netGainFromOneSale ++
  "</strong>" ++
  "</li>\n                </ul>\n\n                <hr style=\"margin: 20px 0;\">\n                <p>This forecast illustrates the potential of a well-planned marketing strategy. We would love to discuss these opportunities with you further.</p>\n                <p>Sincerely,<br>The ConAg Marketing Team</p>\n            </div>\n        "

/-- The `SendSmtpEmail` populated on server.js 145-150. -/
def buildReportEmail (cfg : Config) (d : ReportData) : EmailMessage :=
  { sendTo := [⟨d.userEmail, d.userName⟩],
    bcc := [⟨Json.str cfg.marketingTeamEmail, Json.str "ConAg Marketing Team"⟩],
    sender := ⟨Json.str cfg.brevoSenderEmail, Json.str "ConAg Marketing Forecaster"⟩,
    subject := "Your Marketing Forecast from ConAg Marketing",
    htmlContent := reportHtml d }

/-- How a request to an endpoint can end: with a response, or with an
uncaught exception inside the handler (no `res` call, no response).  The
second alternative exists so that theorems can assert which one happens;
no path of this server's handlers produces it, because `express.json()`
(body-parser 1.x) initializes `req.body` to at least `{}` before its
content-type check, so the handlers never dereference `undefined`. -/
inductive EndpointOutcome where
  | responded (r : HandlerResult)
  | uncaughtException

/-- The outbound calls attempted by a finished endpoint invocation. -/
def EndpointOutcome.sentCalls : EndpointOutcome → List OutboundCall
  | .responded r => r.calls
  | .uncaughtException => []

/-- The report handler (server.js 104-159).  `reportData` is the request's
JSON body: `none` when the request carried no JSON body at all.  In that
case body-parser 1.x has already set `req.body = req.body || {}`, so the
handler runs on the empty object: the entry `console.log` on line 106 reads
`({}).userEmail`, which is `undefined` and harmless, and the guard
`!reportData || !reportData.userEmail` on line 107 fires on its second
disjunct (the first disjunct never decides, since `req.body` is never
falsy), answering 400 with no provider call — the same result as a parsed
body whose `userEmail` is falsy. -/
def sendForecastReport (cfg : Config) (reportData : Option ReportData)
    (emailOutcome : CallOutcome) : EndpointOutcome :=
  match reportData with
  | none =>
    .responded
      { calls := [], logs := ["--- Email endpoint called for: ---"],
        response := ⟨400, Json.obj [("message", Json.str "Missing report data.")]⟩ }
  | some d =>
    if !d.userEmail.isTruthy then
      .responded
        { calls := [], logs := ["--- Email endpoint called for: ---"],
          response := ⟨400, Json.obj [("message", Json.str "Missing report data.")]⟩ }
    else
      let msg := buildReportEmail cfg d
      match emailOutcome with
      | .success =>
        .responded
          { calls := [.sendEmail msg],
            logs := ["--- Email endpoint called for: ---", "Detailed email sent successfully."],
            response := ⟨200, Json.obj [("message", Json.str "Report emailed successfully!")]⟩ }
      | .failure =>
        .responded
          { calls := [.sendEmail msg],
            logs := ["--- Email endpoint called for: ---", "Brevo Email Error:"],
            response := ⟨500, Json.obj [("message", Json.str "A server error occurred while sending the email.")]⟩ }

/-!
## CORS gate (server.js 15-25) and the shared Brevo client (server.js 36-41)
-/

/-- The allow-list on server.js 15. -/
def allowedOrigins : List String := ["https://conagmarketing.com", "http://localhost:3000"]

/-- Truthiness of the `origin` argument of the CORS callback: `undefined`
(header absent) and the empty string are falsy. -/
def jsStrTruthy : Option String → Bool
  | none => false
  | some s => if s = "" then false else true

/-- The `corsOptions.origin` decision (server.js 17-23):
`allowedOrigins.indexOf(origin) !== -1 || !origin` calls back with success,
anything else with an error (`indexOf` of `undefined` is `-1`). -/
def corsOriginAllowed (origin : Option String) : Bool :=
  (match origin with
   | some o => allowedOrigins.contains o
   | none => false) || !(jsStrTruthy origin)

/-- The three routes registered after the `cors` middleware. -/
inductive Route where
  | logUsage
  | sendReport
  | geminiProxy
deriving DecidableEq

/-- Where a request ends up relative to the CORS middleware. -/
inductive CorsOutcome where
  | rejected
  | reachesHandler (r : Route)
deriving DecidableEq

/-- `app.use(cors(corsOptions))` runs before every route handler: when the
origin callback errors, the request is answered by the error path and the
route handler never runs; otherwise dispatch continues to the handler. -/
def corsGate (origin : Option String) (r : Route) : CorsOutcome :=
  if corsOriginAllowed origin then .reachesHandler r else .rejected

/-- The one piece of in-process state shared across requests that handlers
touch: the `api-key` authentication value of the Brevo SDK's module-level
default client (`Brevo.ApiClient.instance.authentications['api-key']`),
`none` before anything has been written to it. -/
structure BrevoClientState where
  apiKey : Option String
deriving DecidableEq

/-- `getBrevoApiClient` (server.js 36-41): reads the shared default client
and assigns `apiKey.apiKey = process.env.BREVO_API_KEY` — a write to
cross-request shared state performed during request handling — then returns
a fresh per-request API object. -/
def getBrevoApiClient (cfg : Config) (_s : BrevoClientState) : BrevoClientState :=
  { apiKey := some cfg.brevoApiKey }

/-- Effect of one `/api/log-forecast-usage` request on the shared client
state (the handler's first act is `getBrevoApiClient(Brevo.ContactsApi)`). -/
def logUsageSharedEffect (cfg : Config) (s : BrevoClientState) : BrevoClientState :=
  getBrevoApiClient cfg s

/-- Effect of one `/api/send-forecast-report` request on the shared client
state (`getBrevoApiClient(Brevo.TransactionalEmailsApi)`). -/
def sendReportSharedEffect (cfg : Config) (s : BrevoClientState) : BrevoClientState :=
  getBrevoApiClient cfg s

/-- Effect of one `/api/gemini-proxy` request on the shared client state:
that handler never touches the Brevo client. -/
def geminiSharedEffect (_cfg : Config) (s : BrevoClientState) : BrevoClientState := s

/-!
## String-containment helpers

Containment of a pattern in a catenation is witnessed by an explicit split;
the lemmas below walk a right-associated catenation of segments.
-/

/-- `pat` occurs contiguously inside `s`. -/
def strContains (s pat : String) : Prop := ∃ a b : String, s = a ++ pat ++ b

theorem str_append_assoc (a b c : String) : a ++ b ++ c = a ++ (b ++ c) := by
  rcases a with ⟨la⟩; rcases b with ⟨lb⟩; rcases c with ⟨lc⟩
  show String.mk (la ++ lb ++ lc) = String.mk (la ++ (lb ++ lc))
  rw [List.append_assoc]

theorem str_empty_append (s : String) : "" ++ s = s := by
  rcases s with ⟨ls⟩
  show String.mk ([] ++ ls) = String.mk ls
  rw [List.nil_append]

/-- Skip one leading segment. -/
theorem strContains_shift (x rest pat : String) (h : strContains rest pat) :
    strContains (x ++ rest) pat := by
  obtain ⟨a, b, hab⟩ := h
  exact ⟨x ++ a, b, by rw [hab]; simp only [str_append_assoc]⟩

/-- A two-segment pattern sitting at the head. -/
theorem strContains_head2 (x y rest : String) : strContains (x ++ (y ++ rest)) (x ++ y) :=
  ⟨"", rest, by simp only [str_empty_append, str_append_assoc]⟩

/-- A three-segment pattern sitting at the head. -/
theorem strContains_head3 (x y z rest : String) :
    strContains (x ++ (y ++ (z ++ rest))) (x ++ (y ++ z)) :=
  ⟨"", rest, by simp only [str_empty_append, str_append_assoc]⟩

/-!
## Claim theorems
-/

/-- With a truthy prompt the proxy always attempts exactly one upstream call,
carrying the payload built from the request fields. -/
theorem geminiProxy_calls (prompt isJsonOutput schema : Option Json)
    (u : Json → UpstreamOutcome) (h : jsTruthyOpt prompt = true) :
    (geminiProxy prompt isJsonOutput schema u).calls =
      [OutboundCall.geminiGenerate (geminiPayload (prompt.getD Json.null) isJsonOutput schema)] := by
  simp only [geminiProxy, h, Bool.not_true, Bool.false_eq_true, if_false]
  rcases hu : u (geminiPayload (prompt.getD Json.null) isJsonOutput schema) with ⟨st, bd⟩ | st | _ <;>
    first | rfl | (split <;> first | rfl | (split <;> rfl))

/-- C7: a completion-proxy request whose prompt is missing or empty is
answered 400 with an error-shaped `{error:{message}}` body, and no upstream
call is made. -/
theorem gemini_proxy_rejects_missing_prompt (isJsonOutput schema : Option Json)
    (u : Json → UpstreamOutcome) (prompt : Option Json)
    (h : prompt = none ∨ prompt = some (Json.str "")) :
    geminiProxy prompt isJsonOutput schema u =
      { calls := [], logs := ["--- AI proxy endpoint called. ---"],
        response := ⟨400, Json.obj [("error", Json.obj
          [("message", Json.str "Prompt is required.")])]⟩ } := by
  rcases h with rfl | rfl <;> rfl

/-- Witness for C7 at the concrete empty prompt. -/
theorem gemini_proxy_rejects_missing_prompt_witness :
    geminiProxy (some (Json.str "")) none none (fun _ => UpstreamOutcome.transportFailure) =
      { calls := [], logs := ["--- AI proxy endpoint called. ---"],
        response := ⟨400, Json.obj [("error", Json.obj
          [("message", Json.str "Prompt is required.")])]⟩ } :=
  gemini_proxy_rejects_missing_prompt none none _ _ (Or.inr rfl)

/-- C1: with a non-empty prompt, a non-2xx upstream reply with a JSON body is
relayed verbatim (same status, same JSON body), and a transport-level failure
yields the fixed 500 status with the generic error-shaped message. -/
theorem gemini_proxy_error_passthrough (p : String) (hp : p ≠ "")
    (isJsonOutput schema : Option Json) (status : Nat) (body : Json)
    (hbad : status < 200 ∨ 300 ≤ status) :
    (geminiProxy (some (Json.str p)) isJsonOutput schema
        (fun _ => UpstreamOutcome.response status body)).response = ⟨status, body⟩ ∧
    (geminiProxy (some (Json.str p)) isJsonOutput schema
        (fun _ => UpstreamOutcome.transportFailure)).response =
      ⟨500, Json.obj [("error", Json.obj [("message", Json.str
        "A critical error occurred on the backend while contacting the AI service.")])]⟩ := by
  have ht : jsTruthyOpt (some (Json.str p)) = true := by
    simp [jsTruthyOpt, Json.isTruthy, hp]
  have hok : fetchOk status = false := by
    rcases hbad with h | h <;> simp [fetchOk] <;> omega
  constructor
  · simp [geminiProxy, ht, hok]
  · simp [geminiProxy, ht]

/-- Witness for C1 at a concrete 404 upstream error and a concrete transport
failure. -/
theorem gemini_proxy_error_passthrough_witness :
    (geminiProxy (some (Json.str "Hello")) none none (fun _ =>
        UpstreamOutcome.response 404 (Json.obj [("error", Json.obj
          [("message", Json.str "model not found")])]))).response =
      ⟨404, Json.obj [("error", Json.obj [("message", Json.str "model not found")])]⟩ ∧
    (geminiProxy (some (Json.str "Hello")) none none (fun _ =>
        UpstreamOutcome.transportFailure)).response =
      ⟨500, Json.obj [("error", Json.obj [("message", Json.str
        "A critical error occurred on the backend while contacting the AI service.")])]⟩ :=
  gemini_proxy_error_passthrough "Hello" (by decide) none none 404 _ (Or.inr (by omega))

/-- C4 counterexample: an upstream success with status 201 (a success status)
is relayed with status 200, not with the upstream's own success status. -/
theorem gemini_proxy_success_status_counterexample :
    (geminiProxy (some (Json.str "hi")) none none
        (fun _ => UpstreamOutcome.response 201 (Json.obj []))).response.status = 200 ∧
    (200 : Nat) ≠ 201 := by
  exact ⟨rfl, by decide⟩

/-- C4 (amended): on any upstream 2xx success the proxy relays the upstream
JSON body verbatim with the fixed status 200 — which coincides with the
upstream's success status exactly when that status is 200. -/
theorem gemini_proxy_success_passthrough (p : String) (hp : p ≠ "")
    (isJsonOutput schema : Option Json) (status : Nat) (body : Json)
    (h2 : 200 ≤ status) (h3 : status < 300) :
    (geminiProxy (some (Json.str p)) isJsonOutput schema
        (fun _ => UpstreamOutcome.response status body)).response = ⟨200, body⟩ := by
  have ht : jsTruthyOpt (some (Json.str p)) = true := by
    simp [jsTruthyOpt, Json.isTruthy, hp]
  have hok : fetchOk status = true := by
    unfold fetchOk
    rw [decide_eq_true h2, decide_eq_true h3]
    rfl
  simp [geminiProxy, ht, hok]

/-- Witness for the amended C4 at a concrete 200 upstream success. -/
theorem gemini_proxy_success_passthrough_witness :
    (geminiProxy (some (Json.str "hi")) none none (fun _ =>
        UpstreamOutcome.response 200 (Json.obj [("candidates", Json.arr [])]))).response =
      ⟨200, Json.obj [("candidates", Json.arr [])]⟩ :=
  gemini_proxy_success_passthrough "hi" (by decide) none none 200 _ (by omega) (by omega)

/-- C2: with a non-empty prompt, the outbound payload carries the prompt as
the text of a single user-role turn; it carries a `generationConfig` — with
`responseMimeType` "application/json" and `responseSchema` equal to the
supplied schema — if and only if `isJsonOutput` is `true` and a schema
object is supplied; and the payload is what the one upstream call sends. -/
theorem gemini_payload_schema_iff (p : String) (hp : p ≠ "")
    (isJsonOutput schema : Option Json)
    (hio : isJsonOutput = none ∨ ∃ b, isJsonOutput = some (Json.bool b))
    (hsch : schema = none ∨ ∃ fs, schema = some (Json.obj fs))
    (u : Json → UpstreamOutcome) :
    (geminiPayload (Json.str p) isJsonOutput schema).getField "contents" =
      some (Json.arr [Json.obj [("role", Json.str "user"),
        ("parts", Json.arr [Json.obj [("text", Json.str p)]])]]) ∧
    (((geminiPayload (Json.str p) isJsonOutput schema).getField "generationConfig").isSome ↔
      (isJsonOutput = some (Json.bool true) ∧ ∃ fs, schema = some (Json.obj fs))) ∧
    (∀ fs, isJsonOutput = some (Json.bool true) → schema = some (Json.obj fs) →
      (geminiPayload (Json.str p) isJsonOutput schema).getField "generationConfig" =
        some (Json.obj [("responseMimeType", Json.str "application/json"),
          ("responseSchema", Json.obj fs)])) ∧
    (geminiProxy (some (Json.str p)) isJsonOutput schema u).calls =
      [OutboundCall.geminiGenerate (geminiPayload (Json.str p) isJsonOutput schema)] := by
  have ht : jsTruthyOpt (some (Json.str p)) = true := by
    simp [jsTruthyOpt, Json.isTruthy, hp]
  refine ⟨?_, ?_, ?_, geminiProxy_calls _ _ _ u ht⟩
  · simp only [geminiPayload]
    split <;> rfl
  · rcases hio with rfl | ⟨b, rfl⟩
    · rcases hsch with rfl | ⟨fs, rfl⟩ <;>
        simp [geminiPayload, jsTruthyOpt, Json.isTruthy, Json.getField, jsonLookup]
    · rcases hsch with rfl | ⟨fs, rfl⟩ <;> cases b <;>
        simp [geminiPayload, jsTruthyOpt, Json.isTruthy, Json.getField, jsonLookup]
  · rintro fs rfl rfl
    rfl

/-- Witness for C2 at a concrete prompt with `isJsonOutput = true` and a
concrete schema object. -/
theorem gemini_payload_schema_iff_witness :
    (geminiPayload (Json.str "Summarize") (some (Json.bool true))
        (some (Json.obj [("type", Json.str "object")]))).getField "contents" =
      some (Json.arr [Json.obj [("role", Json.str "user"),
        ("parts", Json.arr [Json.obj [("text", Json.str "Summarize")]])]]) ∧
    (((geminiPayload (Json.str "Summarize") (some (Json.bool true))
        (some (Json.obj [("type", Json.str "object")]))).getField "generationConfig").isSome ↔
      (some (Json.bool true) = some (Json.bool true) ∧
        ∃ fs, some (Json.obj [("type", Json.str "object")]) = some (Json.obj fs))) ∧
    (∀ fs, some (Json.bool true) = some (Json.bool true) →
      some (Json.obj [("type", Json.str "object")]) = some (Json.obj fs) →
      (geminiPayload (Json.str "Summarize") (some (Json.bool true))
          (some (Json.obj [("type", Json.str "object")]))).getField "generationConfig" =
        some (Json.obj [("responseMimeType", Json.str "application/json"),
          ("responseSchema", Json.obj fs)])) ∧
    (geminiProxy (some (Json.str "Summarize")) (some (Json.bool true))
        (some (Json.obj [("type", Json.str "object")]))
        (fun _ => UpstreamOutcome.transportFailure)).calls =
      [OutboundCall.geminiGenerate (geminiPayload (Json.str "Summarize")
        (some (Json.bool true)) (some (Json.obj [("type", Json.str "object")])))] :=
  gemini_payload_schema_iff "Summarize" (by decide) _ _
    (Or.inr ⟨true, rfl⟩) (Or.inr ⟨[("type", Json.str "object")], rfl⟩)
    (fun _ => UpstreamOutcome.transportFailure)

/-- A concrete configuration used by witnesses. -/
def exCfg : Config :=
  { brevoApiKey := "brevo-key", brevoLeadListId := 7, googleSheetId := "sheet-1",
    marketingTeamEmail := "team@conagmarketing.com",
    brevoSenderEmail := "forecaster@conagmarketing.com",
    geminiApiKey := "gemini-key" }

/-- A concrete usage event used by witnesses. -/
def exUsage : UsageEvent :=
  { userName := Json.str "Pat", userEmail := Json.str "dealer@example.com",
    userCompany := Json.str "Example Equipment Co",
    equipmentTypes := Json.str "Construction",
    avgSaleValue := Json.num 150000,
    avgProfitMargin := Json.num 20,
    totalMonthlyMarketingSpend := Json.num 3500,
    netGainFromOneSale := Json.num 26500,
    serviceInputs :=
      { emailSends := Json.num 2,
        selectedSocialChannelsText := Json.str "Facebook, Instagram",
        websiteMaintenanceSelected := Json.bool true,
        seoEnhancementsSelected := Json.bool false,
        googleAdsDailySpend := Json.num 40 } }

/-- C3: every usage-event logging request is answered 200 with the fixed
success message regardless of how the CRM and spreadsheet calls end; both
outbound calls are attempted whatever the outcomes (so one failing never
prevents the other), and each failure is logged. -/
theorem log_usage_always_succeeds (cfg : Config) (now : String) (d : UsageEvent)
    (brevoOutcome sheetOutcome : CallOutcome) :
    (logForecastUsage cfg now d brevoOutcome sheetOutcome).response =
      ⟨200, Json.obj [("message", Json.str "Data logged successfully")]⟩ ∧
    (logForecastUsage cfg now d brevoOutcome sheetOutcome).calls =
      [OutboundCall.brevoCreateContact (buildCreateContact cfg d),
       OutboundCall.sheetAppend (buildSheetRow now d)] ∧
    (brevoOutcome = CallOutcome.failure →
      "Brevo API Error:" ∈ (logForecastUsage cfg now d brevoOutcome sheetOutcome).logs) ∧
    (sheetOutcome = CallOutcome.failure →
      "Google Sheets Error:" ∈ (logForecastUsage cfg now d brevoOutcome sheetOutcome).logs) := by
  refine ⟨rfl, rfl, ?_, ?_⟩
  · rintro rfl
    cases sheetOutcome <;> simp [logForecastUsage]
  · rintro rfl
    cases brevoOutcome <;> simp [logForecastUsage]

/-- Witness for C3: both downstream calls failing still yields the 200
response, both calls attempted, both failures logged. -/
theorem log_usage_always_succeeds_witness :
    (logForecastUsage exCfg "2026-10-12T00:00:00.000Z" exUsage
        CallOutcome.failure CallOutcome.failure).response =
      ⟨200, Json.obj [("message", Json.str "Data logged successfully")]⟩ ∧
    (logForecastUsage exCfg "2026-10-12T00:00:00.000Z" exUsage
        CallOutcome.failure CallOutcome.failure).calls =
      [OutboundCall.brevoCreateContact (buildCreateContact exCfg exUsage),
       OutboundCall.sheetAppend (buildSheetRow "2026-10-12T00:00:00.000Z" exUsage)] ∧
    (CallOutcome.failure = CallOutcome.failure →
      "Brevo API Error:" ∈ (logForecastUsage exCfg "2026-10-12T00:00:00.000Z" exUsage
        CallOutcome.failure CallOutcome.failure).logs) ∧
    (CallOutcome.failure = CallOutcome.failure →
      "Google Sheets Error:" ∈ (logForecastUsage exCfg "2026-10-12T00:00:00.000Z" exUsage
        CallOutcome.failure CallOutcome.failure).logs) :=
  log_usage_always_succeeds exCfg "2026-10-12T00:00:00.000Z" exUsage
    CallOutcome.failure CallOutcome.failure

/-- A parsed report body that lacks `userEmail` (all fields absent — what
`express.json()` produces for an empty JSON body). -/
def exReportNoEmail : ReportData :=
  { userEmail := Json.null, userName := Json.null, equipmentTypes := Json.null,
    avgSaleValue := none, avgProfitMargin := Json.null,
    totalMonthlyMarketingSpend := none, profitFromOneSale := none,
    netGainFromOneSale := none,
    serviceInputs :=
      { emailSends := Json.null, selectedSocialChannelsText := Json.null,
        websiteMaintenanceSelected := Json.null, seoEnhancementsSelected := Json.null,
        googleAdsDailySpend := none } }

/-- C5: a send-forecast-report request whose body is absent (the parser
hands the handler the empty object) or whose body lacks a `userEmail` field
is answered — not crashed on — with the 400 client error and its short
message, and the email provider is never invoked: zero outbound calls. -/
theorem send_report_missing_email_rejected (cfg : Config) (oc : CallOutcome)
    (reportData : Option ReportData)
    (h : reportData = none ∨ ∃ d, reportData = some d ∧ d.userEmail = Json.null) :
    sendForecastReport cfg reportData oc =
      EndpointOutcome.responded
        { calls := [], logs := ["--- Email endpoint called for: ---"],
          response := ⟨400, Json.obj [("message", Json.str "Missing report data.")]⟩ } := by
  rcases h with rfl | ⟨d, rfl, hd⟩
  · rfl
  · simp [sendForecastReport, Json.isTruthy, hd]

/-- Witness for C5 at the two concrete inputs: an absent body and a parsed
body with every field missing. -/
theorem send_report_missing_email_rejected_witness :
    sendForecastReport exCfg none CallOutcome.success =
      EndpointOutcome.responded
        { calls := [], logs := ["--- Email endpoint called for: ---"],
          response := ⟨400, Json.obj [("message", Json.str "Missing report data.")]⟩ } ∧
    sendForecastReport exCfg (some exReportNoEmail) CallOutcome.success =
      EndpointOutcome.responded
        { calls := [], logs := ["--- Email endpoint called for: ---"],
          response := ⟨400, Json.obj [("message", Json.str "Missing report data.")]⟩ } :=
  ⟨send_report_missing_email_rejected exCfg CallOutcome.success none (Or.inl rfl),
   send_report_missing_email_rejected exCfg CallOutcome.success (some exReportNoEmail)
     (Or.inr ⟨exReportNoEmail, rfl, rfl⟩)⟩

/-- The eleven labelled fragments of the rendered body: each interpolated
field appears right after its label text (and the margin right before its
percent sign, the net gain right before its closing tag). -/
theorem reportHtml_parts (d : ReportData) :
    strContains (reportHtml d)
      ("<li><strong>What Equipment You Sell:</strong> " ++ d.equipmentTypes.interp) ∧
    strContains (reportHtml d)
      ("<li><strong>Average Sale Value:</strong> " ++ formatCurrency d.avgSaleValue) ∧
    strContains (reportHtml d)
      ("<li><strong>Average Profit Margin:</strong> " ++ d.avgProfitMargin.interp ++ "%") ∧
    strContains (reportHtml d)
      ("<li><strong>Email Blasts:</strong> " ++
        d.serviceInputs.emailSends.interp ++ " send(s)/month") ∧
    strContains (reportHtml d)
      ("<li><strong>Social Media Channels:</strong> " ++
        d.serviceInputs.selectedSocialChannelsText.interp) ∧
    strContains (reportHtml d)
      ("<li><strong>Website Maintenance:</strong> " ++
        (if d.serviceInputs.websiteMaintenanceSelected.isTruthy then "Yes" else "No")) ∧
    strContains (reportHtml d)
      ("<li><strong>Website SEO & AI Enhancements:</strong> " ++
        (if d.serviceInputs.seoEnhancementsSelected.isTruthy then "Yes" else "No")) ∧
    strContains (reportHtml d)
      ("<li><strong>Google Ads Daily Spend:</strong> " ++
        formatCurrency d.serviceInputs.googleAdsDailySpend) ∧
    strContains (reportHtml d)
      ("Total Selected Monthly Marketing Spend: <strong>" ++
        formatCurrency d.totalMonthlyMarketingSpend) ∧
    strContains (reportHtml d)
      ("Estimated Profit from ONE Sale: <strong>" ++ formatCurrency d.profitFromOneSale) ∧
    strContains (reportHtml d) (formatCurrency d.netGainFromOneSale ++ "</strong>") := by
  refine ⟨?_, ?_, ?_, ?_, ?_, ?_, ?_, ?_, ?_, ?_, ?_⟩
  all_goals
    simp only [reportHtml, str_append_assoc]
  all_goals
    repeat (first
      | exact strContains_head2 _ _ _
      | exact strContains_head3 _ _ _ _
      | apply strContains_shift)

/-- With a truthy recipient, the handler submits exactly one email — the one
built by `buildReportEmail` — whatever the provider then does. -/
theorem sendReport_attempts_email (cfg : Config) (d : ReportData) (oc : CallOutcome)
    (he : d.userEmail.isTruthy = true) :
    (sendForecastReport cfg (some d) oc).sentCalls =
      [OutboundCall.sendEmail (buildReportEmail cfg d)] := by
  cases oc <;> simp [sendForecastReport, he, EndpointOutcome.sentCalls]

/-- C6: for a report request with a present recipient, the email submitted to
the provider goes to the request's `userEmail`, is blind-copied to the fixed
marketing-team address, comes from the fixed sender identity with the fixed
subject, and its HTML body contains every currency figure as formatted by
`formatCurrency` (rounded to whole units, thousands-separated, leading `$`),
the equipment-type and service-selection fields, the booleans as Yes/No, and
the margin followed by a percent sign. -/
theorem send_report_email_contents (cfg : Config) (d : ReportData) (oc : CallOutcome)
    (he : d.userEmail.isTruthy = true) :
    (sendForecastReport cfg (some d) oc).sentCalls =
      [OutboundCall.sendEmail (buildReportEmail cfg d)] ∧
    (buildReportEmail cfg d).sendTo = [⟨d.userEmail, d.userName⟩] ∧
    (buildReportEmail cfg d).bcc =
      [⟨Json.str cfg.marketingTeamEmail, Json.str "ConAg Marketing Team"⟩] ∧
    (buildReportEmail cfg d).sender =
      ⟨Json.str cfg.brevoSenderEmail, Json.str "ConAg Marketing Forecaster"⟩ ∧
    (buildReportEmail cfg d).subject = "Your Marketing Forecast from ConAg Marketing" ∧
    strContains (reportHtml d)
      ("<li><strong>What Equipment You Sell:</strong> " ++ d.equipmentTypes.interp) ∧
    strContains (reportHtml d)
      ("<li><strong>Average Sale Value:</strong> " ++ formatCurrency d.avgSaleValue) ∧
    strContains (reportHtml d)
      ("<li><strong>Average Profit Margin:</strong> " ++ d.avgProfitMargin.interp ++ "%") ∧
    strContains (reportHtml d)
      ("<li><strong>Email Blasts:</strong> " ++
        d.serviceInputs.emailSends.interp ++ " send(s)/month") ∧
    strContains (reportHtml d)
      ("<li><strong>Social Media Channels:</strong> " ++
        d.serviceInputs.selectedSocialChannelsText.interp) ∧
    strContains (reportHtml d)
      ("<li><strong>Website Maintenance:</strong> " ++
        (if d.serviceInputs.websiteMaintenanceSelected.isTruthy then "Yes" else "No")) ∧
    strContains (reportHtml d)
      ("<li><strong>Website SEO & AI Enhancements:</strong> " ++
        (if d.serviceInputs.seoEnhancementsSelected.isTruthy then "Yes" else "No")) ∧
    strContains (reportHtml d)
      ("<li><strong>Google Ads Daily Spend:</strong> " ++
        formatCurrency d.serviceInputs.googleAdsDailySpend) ∧
    strContains (reportHtml d)
      ("Total Selected Monthly Marketing Spend: <strong>" ++
        formatCurrency d.totalMonthlyMarketingSpend) ∧
    strContains (reportHtml d)
      ("Estimated Profit from ONE Sale: <strong>" ++ formatCurrency d.profitFromOneSale) ∧
    strContains (reportHtml d) (formatCurrency d.netGainFromOneSale ++ "</strong>") ∧
    (buildReportEmail cfg d).htmlContent = reportHtml d := by
  have hp := reportHtml_parts d
  exact ⟨sendReport_attempts_email cfg d oc he, rfl, rfl, rfl, rfl,
    hp.1, hp.2.1, hp.2.2.1, hp.2.2.2.1, hp.2.2.2.2.1, hp.2.2.2.2.2.1,
    hp.2.2.2.2.2.2.1, hp.2.2.2.2.2.2.2.1, hp.2.2.2.2.2.2.2.2.1,
    hp.2.2.2.2.2.2.2.2.2.1, hp.2.2.2.2.2.2.2.2.2.2, rfl⟩

/-- A concrete report request with valid fields; the average sale value is
1234.6 (= 6173/5). -/
def exReport : ReportData :=
  { userEmail := Json.str "dealer@example.com", userName := Json.str "Pat",
    equipmentTypes := Json.str "Construction",
    avgSaleValue := some (Rat.divInt 6173 5),
    avgProfitMargin := Json.num 20,
    totalMonthlyMarketingSpend := some 3500,
    profitFromOneSale := some 24692,
    netGainFromOneSale := some 21192,
    serviceInputs :=
      { emailSends := Json.num 2,
        selectedSocialChannelsText := Json.str "Facebook, Instagram",
        websiteMaintenanceSelected := Json.bool true,
        seoEnhancementsSelected := Json.bool false,
        googleAdsDailySpend := some 40 } }

/-- Witness for C6 at `exReport`: the recipient is the request's email, the
input 1234.6 renders as the exact string `$1,235` in the body, and the send
is attempted. -/
theorem send_report_email_contents_witness :
    (buildReportEmail exCfg exReport).sendTo =
      [⟨Json.str "dealer@example.com", Json.str "Pat"⟩] ∧
    formatCurrency exReport.avgSaleValue = "$1,235" ∧
    strContains (reportHtml exReport)
      ("<li><strong>Average Sale Value:</strong> " ++ "$1,235") ∧
    (sendForecastReport exCfg (some exReport) CallOutcome.success).sentCalls =
      [OutboundCall.sendEmail (buildReportEmail exCfg exReport)] := by
  have h := send_report_email_contents exCfg exReport CallOutcome.success (by decide)
  have e : formatCurrency exReport.avgSaleValue = "$1,235" := by decide
  refine ⟨h.2.1, e, ?_, h.1⟩
  have h7 := h.2.2.2.2.2.2.1
  rw [e] at h7
  exact h7

/-- C10: with a recipient present but the numeric fields absent, null or zero
(the falsy numbers), `formatCurrency` substitutes 0, so every money entry of
the body renders as the exact string `$0`; the send is still attempted, and
on provider success the endpoint still answers 200. -/
theorem send_report_defaults_missing_numbers (cfg : Config) (d : ReportData)
    (oc : CallOutcome) (he : d.userEmail.isTruthy = true)
    (h1 : d.avgSaleValue = none ∨ d.avgSaleValue = some 0)
    (h2 : d.totalMonthlyMarketingSpend = none ∨ d.totalMonthlyMarketingSpend = some 0)
    (h3 : d.profitFromOneSale = none ∨ d.profitFromOneSale = some 0)
    (h4 : d.netGainFromOneSale = none ∨ d.netGainFromOneSale = some 0)
    (h5 : d.serviceInputs.googleAdsDailySpend = none ∨
      d.serviceInputs.googleAdsDailySpend = some 0) :
    formatCurrency d.avgSaleValue = "$0" ∧
    formatCurrency d.totalMonthlyMarketingSpend = "$0" ∧
    formatCurrency d.profitFromOneSale = "$0" ∧
    formatCurrency d.netGainFromOneSale = "$0" ∧
    formatCurrency d.serviceInputs.googleAdsDailySpend = "$0" ∧
    strContains (reportHtml d) ("<li><strong>Average Sale Value:</strong> " ++ "$0") ∧
    strContains (reportHtml d) ("<li><strong>Google Ads Daily Spend:</strong> " ++ "$0") ∧
    strContains (reportHtml d) ("Total Selected Monthly Marketing Spend: <strong>" ++ "$0") ∧
    strContains (reportHtml d) ("Estimated Profit from ONE Sale: <strong>" ++ "$0") ∧
    strContains (reportHtml d) ("$0" ++ "</strong>") ∧
    (sendForecastReport cfg (some d) oc).sentCalls =
      [OutboundCall.sendEmail (buildReportEmail cfg d)] ∧
    (oc = CallOutcome.success →
      sendForecastReport cfg (some d) oc =
        EndpointOutcome.responded
          { calls := [OutboundCall.sendEmail (buildReportEmail cfg d)],
            logs := ["--- Email endpoint called for: ---", "Detailed email sent successfully."],
            response := ⟨200, Json.obj [("message", Json.str "Report emailed successfully!")]⟩ }) := by
  have e1 : formatCurrency d.avgSaleValue = "$0" := by
    rcases h1 with h | h <;> rw [h] <;> decide
  have e2 : formatCurrency d.totalMonthlyMarketingSpend = "$0" := by
    rcases h2 with h | h <;> rw [h] <;> decide
  have e3 : formatCurrency d.profitFromOneSale = "$0" := by
    rcases h3 with h | h <;> rw [h] <;> decide
  have e4 : formatCurrency d.netGainFromOneSale = "$0" := by
    rcases h4 with h | h <;> rw [h] <;> decide
  have e5 : formatCurrency d.serviceInputs.googleAdsDailySpend = "$0" := by
    rcases h5 with h | h <;> rw [h] <;> decide
  have hp := reportHtml_parts d
  refine ⟨e1, e2, e3, e4, e5, ?_, ?_, ?_, ?_, ?_, sendReport_attempts_email cfg d oc he, ?_⟩
  · have hc := hp.2.1
    rw [e1] at hc; exact hc
  · have hc := hp.2.2.2.2.2.2.2.1
    rw [e5] at hc; exact hc
  · have hc := hp.2.2.2.2.2.2.2.2.1
    rw [e2] at hc; exact hc
  · have hc := hp.2.2.2.2.2.2.2.2.2.1
    rw [e3] at hc; exact hc
  · have hc := hp.2.2.2.2.2.2.2.2.2.2
    rw [e4] at hc; exact hc
  · rintro rfl
    simp [sendForecastReport, he]

/-- A concrete report request whose numeric fields are all absent but whose
recipient is present. -/
def exReportBare : ReportData :=
  { userEmail := Json.str "dealer@example.com", userName := Json.str "Pat",
    equipmentTypes := Json.str "Agriculture",
    avgSaleValue := none,
    avgProfitMargin := Json.null,
    totalMonthlyMarketingSpend := none,
    profitFromOneSale := none,
    netGainFromOneSale := none,
    serviceInputs :=
      { emailSends := Json.null,
        selectedSocialChannelsText := Json.null,
        websiteMaintenanceSelected := Json.null,
        seoEnhancementsSelected := Json.null,
        googleAdsDailySpend := none } }

/-- Witness for C10 at `exReportBare`: all money fields absent still renders
`$0` and the send is attempted. -/
theorem send_report_defaults_missing_numbers_witness :
    formatCurrency exReportBare.avgSaleValue = "$0" ∧
    strContains (reportHtml exReportBare)
      ("<li><strong>Average Sale Value:</strong> " ++ "$0") ∧
    (sendForecastReport exCfg (some exReportBare) CallOutcome.success).sentCalls =
      [OutboundCall.sendEmail (buildReportEmail exCfg exReportBare)] := by
  have h := send_report_defaults_missing_numbers exCfg exReportBare CallOutcome.success
    (by decide) (Or.inl rfl) (Or.inl rfl) (Or.inl rfl) (Or.inl rfl) (Or.inl rfl)
  exact ⟨h.1, h.2.2.2.2.2.1, h.2.2.2.2.2.2.2.2.2.2.1⟩

/-- `List.contains` on the allow-list agrees with membership. -/
theorem allowedOrigins_contains_iff (o : String) :
    allowedOrigins.contains o = true ↔ o ∈ allowedOrigins := by
  constructor
  · intro h
    exact List.mem_of_elem_eq_true h
  · intro h
    exact List.elem_eq_true_of_mem h

/-- C8 counterexample: a request that carries an Origin header with the empty
value — a value that is not in the allow-list — is not rejected at the CORS
gate: `!origin` treats the empty string like a missing header, so the
request reaches the handler. -/
theorem cors_empty_origin_counterexample :
    ((some "" : Option String) ≠ none) ∧
    allowedOrigins.contains "" = false ∧
    corsGate (some "") Route.sendReport = CorsOutcome.reachesHandler Route.sendReport := by
  decide

/-- C8 (amended): a request reaches a route handler iff its Origin header is
absent, empty (falsy, treated like an absent header), or on the allow-list;
every other Origin value is rejected at the CORS gate before any handler. -/
theorem cors_gate_characterization (origin : Option String) (r : Route) :
    corsGate origin r = CorsOutcome.reachesHandler r ↔
      (origin = none ∨ origin = some "" ∨
        ∃ o, origin = some o ∧ o ∈ allowedOrigins) := by
  cases origin with
  | none => simp [corsGate, corsOriginAllowed, jsStrTruthy]
  | some o =>
    by_cases h0 : o = ""
    · subst h0
      simp [corsGate, corsOriginAllowed, jsStrTruthy]
    · by_cases hm : o ∈ allowedOrigins
      · have hc := (allowedOrigins_contains_iff o).mpr hm
        simp [corsGate, corsOriginAllowed, jsStrTruthy, h0, hc, hm]
      · have hc : allowedOrigins.contains o = false := by
          cases hco : allowedOrigins.contains o with
          | false => rfl
          | true => exact absurd ((allowedOrigins_contains_iff o).mp hco) hm
        simp [corsGate, corsOriginAllowed, jsStrTruthy, h0, hc, hm]

/-- C9 counterexample: handling a single logging request writes the Brevo API
key into the SDK's shared default client, so request handling does mutate
in-process state shared across requests (shown from the fresh-process state
in which nothing has been written yet). -/
theorem brevo_singleton_mutation_counterexample :
    logUsageSharedEffect exCfg ⟨none⟩ ≠ ⟨none⟩ := by decide

/-- C9 (amended): the only cross-request shared state a handler writes is the
Brevo default client's api-key, and what is written is the static startup
configuration value — independent of the request, idempotent across
requests; the proxy endpoint touches no shared state at all. -/
theorem shared_state_write_is_static_config (cfg : Config) (s : BrevoClientState) :
    logUsageSharedEffect cfg s = ⟨some cfg.brevoApiKey⟩ ∧
    sendReportSharedEffect cfg s = ⟨some cfg.brevoApiKey⟩ ∧
    geminiSharedEffect cfg s = s ∧
    logUsageSharedEffect cfg (logUsageSharedEffect cfg s) = logUsageSharedEffect cfg s ∧
    sendReportSharedEffect cfg (sendReportSharedEffect cfg s) = sendReportSharedEffect cfg s :=
  ⟨rfl, rfl, rfl, rfl, rfl⟩
